import Mathlib

/-!
Verification of the EcoEnergy device/alert domain model
(`src/EcoEnergy/devices/models.py`, `src/EcoEnergy/devices/forms.py`,
`src/monitoreo/dispositivos/forms.py`).

The Django ORM declarations are shallowly embedded: each model becomes a row
structure, a table becomes a `List` of rows, and the persistence-level
constraints (`CheckConstraint`, `UniqueConstraint`, `unique_together`,
`on_delete` policies) become explicit insert/delete operations on those lists.
`FloatField` threshold values are modelled as `ℚ`: the code performs no
arithmetic on them, only null tests, copies and order comparisons, which agree
with IEEE semantics on the rationals the fields hold.

The one piece of genuine logic, `AlertRule.effective_thresholds_for`, mutates a
per-instance memo attribute `_par_cache`; it is embedded in explicit
state-passing style, returning the result, the updated instance state, and the
number of association lookups performed (the observable the spec's memo
properties talk about).
-/

namespace EcoEnergy

/-- `AlertRule.Severity` TextChoices. -/
inductive Severity where
  | CRITICAL
  | HIGH
  | MEDIUM
  | LOW
deriving DecidableEq, BEq, Repr

/-- A `Product` row (fields the claims touch; electrical spec columns are
nullable floats never read by the logic under verification and are omitted). -/
structure ProductRow where
  id : Nat
  name : String
  category_id : Nat
  sku : String
deriving DecidableEq, BEq, Repr

/-- An `AlertRule` row: name, severity, unit, and the two nullable default
thresholds. -/
structure AlertRuleRow where
  id : Nat
  name : String
  severity : Severity
  unit : String
  default_min_threshold : Option ℚ
  default_max_threshold : Option ℚ
deriving DecidableEq, BEq, Repr

/-- A `ProductAlertRule` association row: the (product, alert_rule) pair plus
the nullable per-product overrides. -/
structure ProductAlertRuleRow where
  id : Nat
  product_id : Nat
  alert_rule_id : Nat
  min_threshold : Option ℚ
  max_threshold : Option ℚ
  unit_override : Option String
deriving DecidableEq, BEq, Repr

/-- The `_par_cache` dict stored on an `AlertRule` instance by
`effective_thresholds_for`: keys product_id, alert_rule_id, min, max.
min/max are plain values since the code only caches a full override. -/
structure ParCache where
  product_id : Nat
  alert_rule_id : Nat
  min : ℚ
  max : ℚ
deriving DecidableEq, Repr

/-- An in-memory `AlertRule` instance: its row plus the optional `_par_cache`
attribute (`getattr(self, "_par_cache", None)` yields `none` when the
attribute was never written). -/
structure AlertRuleInstance where
  rule : AlertRuleRow
  par_cache : Option ParCache
deriving DecidableEq, Repr

/-- A freshly constructed `AlertRule` instance: no `_par_cache` attribute. -/
def mkInstance (r : AlertRuleRow) : AlertRuleInstance :=
  { rule := r, par_cache := none }

/-- `ProductAlertRule.objects.filter(product=product, alert_rule=self).first()`:
the first stored row matching both foreign keys, if any. -/
def findLink (store : List ProductAlertRuleRow) (pid rid : Nat) :
    Option ProductAlertRuleRow :=
  store.find? (fun l => l.product_id == pid && l.alert_rule_id == rid)

/-- Outcome of one `effective_thresholds_for` call: the returned (min, max)
pair, the instance state after the call (the memo may have been written), and
the number of association lookups the call issued (0 on a memo hit, else 1). -/
structure ResolveOut where
  result : Option ℚ × Option ℚ
  state : AlertRuleInstance
  lookups : Nat
deriving DecidableEq, Repr

/-- The body of `effective_thresholds_for` after the memo check failed: query
the association; if it exists with both overrides non-null, write the memo and
return the override pair; otherwise return the rule defaults unchanged. -/
def lookupAndResolve (store : List ProductAlertRuleRow)
    (s : AlertRuleInstance) (product : ProductRow) : ResolveOut :=
  match findLink store product.id s.rule.id with
  | some link =>
      match link.min_threshold, link.max_threshold with
      | some m, some M =>
          { result := (some m, some M)
            state := { rule := s.rule
                       par_cache := some { product_id := product.id
                                           alert_rule_id := s.rule.id
                                           min := m, max := M } }
            lookups := 1 }
      | _, _ =>
          { result := (s.rule.default_min_threshold, s.rule.default_max_threshold)
            state := s
            lookups := 1 }
  | none =>
      { result := (s.rule.default_min_threshold, s.rule.default_max_threshold)
        state := s
        lookups := 1 }

/-- `AlertRule.effective_thresholds_for(self, product)`: return the memoised
pair when `_par_cache` exists and matches both `product.id` and `self.id`;
otherwise fall through to the association lookup. -/
def effective_thresholds_for (store : List ProductAlertRuleRow)
    (s : AlertRuleInstance) (product : ProductRow) : ResolveOut :=
  match s.par_cache with
  | some par =>
      if par.product_id = product.id ∧ par.alert_rule_id = s.rule.id then
        { result := (some par.min, some par.max), state := s, lookups := 0 }
      else
        lookupAndResolve store s product
  | none => lookupAndResolve store s product

/-- Modelled from the spec: the memo-free resolver of §4.1 (steps 2-4 only,
no cache), used as the reference side of the refinement claim. -/
def resolveMemoFree (store : List ProductAlertRuleRow)
    (rule : AlertRuleRow) (product : ProductRow) : Option ℚ × Option ℚ :=
  match findLink store product.id rule.id with
  | some link =>
      match link.min_threshold, link.max_threshold with
      | some m, some M => (some m, some M)
      | _, _ => (rule.default_min_threshold, rule.default_max_threshold)
  | none => (rule.default_min_threshold, rule.default_max_threshold)

/-- Run a sequence of `effective_thresholds_for` calls on one instance,
threading the memo state, and collect the returned pairs. -/
def runResolves (store : List ProductAlertRuleRow) (s : AlertRuleInstance) :
    List ProductRow → List (Option ℚ × Option ℚ)
  | [] => []
  | p :: ps =>
      (effective_thresholds_for store s p).result ::
        runResolves store (effective_thresholds_for store s p).state ps

/-- The memo, when present and keyed to this instance's rule, records exactly
the full-override association found in the store for its product key. -/
def cacheConsistent (store : List ProductAlertRuleRow)
    (s : AlertRuleInstance) : Prop :=
  ∀ c, s.par_cache = some c → c.alert_rule_id = s.rule.id →
    ∃ l, findLink store c.product_id s.rule.id = some l ∧
      l.min_threshold = some c.min ∧ l.max_threshold = some c.max

theorem lookupAndResolve_result (store : List ProductAlertRuleRow)
    (s : AlertRuleInstance) (p : ProductRow) :
    (lookupAndResolve store s p).result = resolveMemoFree store s.rule p := by
  unfold lookupAndResolve resolveMemoFree
  cases hf : findLink store p.id s.rule.id with
  | none => rfl
  | some link =>
      cases hm : link.min_threshold with
      | none => simp only [hm]
      | some m =>
          cases hM : link.max_threshold with
          | none => simp only [hm, hM]
          | some M => simp only [hm, hM]

theorem lookupAndResolve_rule (store : List ProductAlertRuleRow)
    (s : AlertRuleInstance) (p : ProductRow) :
    (lookupAndResolve store s p).state.rule = s.rule := by
  unfold lookupAndResolve
  cases hf : findLink store p.id s.rule.id with
  | none => rfl
  | some link =>
      cases hm : link.min_threshold with
      | none => simp only [hm]
      | some m =>
          cases hM : link.max_threshold with
          | none => simp only [hm, hM]
          | some M => simp only [hm, hM]

theorem lookupAndResolve_none (store : List ProductAlertRuleRow)
    (s : AlertRuleInstance) (p : ProductRow)
    (hfind : findLink store p.id s.rule.id = none) :
    lookupAndResolve store s p =
      { result := (s.rule.default_min_threshold, s.rule.default_max_threshold)
        state := s, lookups := 1 } := by
  unfold lookupAndResolve
  rw [hfind]

theorem lookupAndResolve_full (store : List ProductAlertRuleRow)
    (s : AlertRuleInstance) (p : ProductRow) (l : ProductAlertRuleRow)
    (m M : ℚ) (hfind : findLink store p.id s.rule.id = some l)
    (hmin : l.min_threshold = some m) (hmax : l.max_threshold = some M) :
    lookupAndResolve store s p =
      { result := (some m, some M)
        state := { rule := s.rule
                   par_cache := some { product_id := p.id, alert_rule_id := s.rule.id
                                       min := m, max := M } }
        lookups := 1 } := by
  unfold lookupAndResolve
  rw [hfind]
  simp only [hmin, hmax]

theorem lookupAndResolve_partial (store : List ProductAlertRuleRow)
    (s : AlertRuleInstance) (p : ProductRow) (l : ProductAlertRuleRow)
    (hfind : findLink store p.id s.rule.id = some l)
    (hp : l.min_threshold = none ∨ l.max_threshold = none) :
    lookupAndResolve store s p =
      { result := (s.rule.default_min_threshold, s.rule.default_max_threshold)
        state := s, lookups := 1 } := by
  unfold lookupAndResolve
  rw [hfind]
  cases hm : l.min_threshold with
  | none =>
      cases hM : l.max_threshold with
      | none => simp only [hm, hM]
      | some M => simp only [hm, hM]
  | some m =>
      cases hM : l.max_threshold with
      | none => simp only [hm, hM]
      | some M =>
          rcases hp with h | h
          · rw [hm] at h; exact absurd h (by simp)
          · rw [hM] at h; exact absurd h (by simp)

theorem lookupAndResolve_consistent (store : List ProductAlertRuleRow)
    (s : AlertRuleInstance) (p : ProductRow)
    (hc : cacheConsistent store s) :
    cacheConsistent store (lookupAndResolve store s p).state := by
  unfold lookupAndResolve
  cases hf : findLink store p.id s.rule.id with
  | none => exact hc
  | some link =>
      cases hm : link.min_threshold with
      | none => simp only [hm]; exact hc
      | some m =>
          cases hM : link.max_threshold with
          | none => simp only [hm, hM]; exact hc
          | some M =>
              simp only [hm, hM]
              intro c hcache _
              simp only [Option.some.injEq] at hcache
              subst hcache
              exact ⟨link, hf, hm, hM⟩

theorem effective_fresh (store : List ProductAlertRuleRow)
    (r : AlertRuleRow) (p : ProductRow) :
    effective_thresholds_for store (mkInstance r) p =
      lookupAndResolve store (mkInstance r) p := rfl

theorem effective_of_cache_none (store : List ProductAlertRuleRow)
    (s : AlertRuleInstance) (p : ProductRow) (hcache : s.par_cache = none) :
    effective_thresholds_for store s p = lookupAndResolve store s p := by
  unfold effective_thresholds_for
  rw [hcache]

theorem effective_of_cache_some (store : List ProductAlertRuleRow)
    (s : AlertRuleInstance) (p : ProductRow) (par : ParCache)
    (hcache : s.par_cache = some par) :
    effective_thresholds_for store s p =
      if par.product_id = p.id ∧ par.alert_rule_id = s.rule.id then
        { result := (some par.min, some par.max), state := s, lookups := 0 }
      else lookupAndResolve store s p := by
  unfold effective_thresholds_for
  rw [hcache]

theorem effective_memo_hit (store : List ProductAlertRuleRow)
    (s : AlertRuleInstance) (p : ProductRow) (c : ParCache)
    (hcache : s.par_cache = some c)
    (hp : c.product_id = p.id) (hr : c.alert_rule_id = s.rule.id) :
    effective_thresholds_for store s p =
      { result := (some c.min, some c.max), state := s, lookups := 0 } := by
  rw [effective_of_cache_some store s p c hcache, if_pos ⟨hp, hr⟩]

theorem resolve_step (store : List ProductAlertRuleRow)
    (s : AlertRuleInstance) (p : ProductRow)
    (hc : cacheConsistent store s) :
    (effective_thresholds_for store s p).result = resolveMemoFree store s.rule p ∧
    (effective_thresholds_for store s p).state.rule = s.rule ∧
    cacheConsistent store (effective_thresholds_for store s p).state := by
  cases hcache : s.par_cache with
  | none =>
      rw [effective_of_cache_none store s p hcache]
      exact ⟨lookupAndResolve_result store s p, lookupAndResolve_rule store s p,
             lookupAndResolve_consistent store s p hc⟩
  | some par =>
      by_cases hmatch : par.product_id = p.id ∧ par.alert_rule_id = s.rule.id
      · rw [effective_of_cache_some store s p par hcache, if_pos hmatch]
        obtain ⟨l, hfind, hmin, hmax⟩ := hc par hcache hmatch.2
        rw [hmatch.1] at hfind
        refine ⟨?_, rfl, hc⟩
        show (some par.min, some par.max) = resolveMemoFree store s.rule p
        unfold resolveMemoFree
        rw [hfind]
        simp only [hmin, hmax]
      · rw [effective_of_cache_some store s p par hcache, if_neg hmatch]
        exact ⟨lookupAndResolve_result store s p, lookupAndResolve_rule store s p,
               lookupAndResolve_consistent store s p hc⟩

theorem mkInstance_consistent (store : List ProductAlertRuleRow)
    (r : AlertRuleRow) : cacheConsistent store (mkInstance r) := by
  intro c hc
  simp [mkInstance] at hc

/-- C1: for a linked (Product, AlertRule) pair whose association sets exactly
one of min_threshold/max_threshold (the other null), `effective_thresholds_for`
returns the rule's full (default_min_threshold, default_max_threshold) pair,
never a per-field merge of the one set override with one default. -/
theorem claim1_thm
    (store : List ProductAlertRuleRow) (p : ProductRow) (r : AlertRuleRow)
    (l : ProductAlertRuleRow)
    (hfind : findLink store p.id r.id = some l)
    (hone : (l.min_threshold ≠ none ∧ l.max_threshold = none) ∨
            (l.min_threshold = none ∧ l.max_threshold ≠ none)) :
    (effective_thresholds_for store (mkInstance r) p).result =
      (r.default_min_threshold, r.default_max_threshold) := by
  have hor : l.min_threshold = none ∨ l.max_threshold = none := by
    rcases hone with ⟨_, h⟩ | ⟨h, _⟩
    · exact Or.inr h
    · exact Or.inl h
  have h := lookupAndResolve_partial store (mkInstance r) p l hfind hor
  rw [effective_fresh, h]
  rfl

def productC1 : ProductRow :=
  { id := 11, name := "Industrial Heater", category_id := 1, sku := "HT-11" }

def ruleC1 : AlertRuleRow :=
  { id := 1, name := "High Temp", severity := Severity.HIGH, unit := "kWh"
    default_min_threshold := some 10, default_max_threshold := some 50 }

def linkC1 : ProductAlertRuleRow :=
  { id := 101, product_id := 11, alert_rule_id := 1
    min_threshold := some 15, max_threshold := none, unit_override := none }

/-- C1 witness: spec example — defaults (10, 50), override (15, null) yields
(10, 50). -/
theorem claim1_witness :
    findLink [linkC1] productC1.id ruleC1.id = some linkC1 ∧
    linkC1.min_threshold ≠ none ∧ linkC1.max_threshold = none ∧
    (effective_thresholds_for [linkC1] (mkInstance ruleC1) productC1).result =
      (some 10, some 50) :=
  ⟨rfl, by simp [linkC1], rfl,
   claim1_thm [linkC1] productC1 ruleC1 linkC1 rfl
     (Or.inl ⟨by simp [linkC1], rfl⟩)⟩

/-- C2: for an association with both overrides non-null, the resolver returns
exactly that (min_threshold, max_threshold) pair, ignoring the rule defaults,
and writes that pair (keyed by product id and rule id) into the per-instance
memo before returning. -/
theorem claim2_thm
    (store : List ProductAlertRuleRow) (p : ProductRow) (r : AlertRuleRow)
    (l : ProductAlertRuleRow) (m M : ℚ)
    (hfind : findLink store p.id r.id = some l)
    (hmin : l.min_threshold = some m) (hmax : l.max_threshold = some M) :
    (effective_thresholds_for store (mkInstance r) p).result = (some m, some M) ∧
    (effective_thresholds_for store (mkInstance r) p).state.par_cache =
      some { product_id := p.id, alert_rule_id := r.id, min := m, max := M } := by
  have h := lookupAndResolve_full store (mkInstance r) p l m M hfind hmin hmax
  constructor
  · rw [effective_fresh, h]
  · rw [effective_fresh, h]
    rfl

def productC2 : ProductRow :=
  { id := 21, name := "Cooling Fan", category_id := 1, sku := "CF-21" }

def ruleC2 : AlertRuleRow :=
  { id := 2, name := "High Temp", severity := Severity.HIGH, unit := "kWh"
    default_min_threshold := some 10, default_max_threshold := some 50 }

def linkC2 : ProductAlertRuleRow :=
  { id := 201, product_id := 21, alert_rule_id := 2
    min_threshold := some 15, max_threshold := some 45, unit_override := none }

/-- C2 witness: spec example — defaults (10, 50), override (15, 45) yields
(15, 45) and the memo holds (15, 45) keyed by (21, 2). -/
theorem claim2_witness :
    findLink [linkC2] productC2.id ruleC2.id = some linkC2 ∧
    (effective_thresholds_for [linkC2] (mkInstance ruleC2) productC2).result =
      (some 15, some 45) ∧
    (effective_thresholds_for [linkC2] (mkInstance ruleC2) productC2).state.par_cache =
      some { product_id := 21, alert_rule_id := 2, min := 15, max := 45 } :=
  ⟨rfl,
   (claim2_thm [linkC2] productC2 ruleC2 linkC2 15 45 rfl rfl rfl).1,
   (claim2_thm [linkC2] productC2 ruleC2 linkC2 15 45 rfl rfl rfl).2⟩

/-- C3: with no association for the pair, the resolver (a total function —
no error path exists) returns exactly the rule's nullable defaults, including
when one or both are null; (null, null) is a valid result. -/
theorem claim3_thm
    (store : List ProductAlertRuleRow) (p : ProductRow) (r : AlertRuleRow)
    (hfind : findLink store p.id r.id = none) :
    (effective_thresholds_for store (mkInstance r) p).result =
      (r.default_min_threshold, r.default_max_threshold) := by
  have h := lookupAndResolve_none store (mkInstance r) p hfind
  rw [effective_fresh, h]
  rfl

def productC3 : ProductRow :=
  { id := 31, name := "LED Panel", category_id := 2, sku := "LP-31" }

def ruleC3 : AlertRuleRow :=
  { id := 3, name := "Standby Drain", severity := Severity.LOW, unit := "W"
    default_min_threshold := none, default_max_threshold := none }

/-- C3 witness: empty association table, both defaults null — the resolver
returns (null, null). -/
theorem claim3_witness :
    findLink [] productC3.id ruleC3.id = none ∧
    (effective_thresholds_for [] (mkInstance ruleC3) productC3).result =
      (none, none) :=
  ⟨rfl, claim3_thm [] productC3 ruleC3 rfl⟩

def productC4 : ProductRow :=
  { id := 41, name := "Smart Plug", category_id := 3, sku := "SP-41" }

def ruleC4 : AlertRuleRow :=
  { id := 4, name := "Idle Drain", severity := Severity.LOW, unit := "kWh"
    default_min_threshold := some 1, default_max_threshold := some 5 }

/-- C4 counterexample: with no association for the pair (empty store), the
second call on the same instance returns the identical result but still issues
an association lookup — the memo is only written on the full-override path, so
"no second lookup regardless of whether an override association exists" is
false. -/
theorem claim4_counterexample :
    (effective_thresholds_for []
        ((effective_thresholds_for [] (mkInstance ruleC4) productC4).state)
        productC4).result =
      (effective_thresholds_for [] (mkInstance ruleC4) productC4).result ∧
    (effective_thresholds_for []
        ((effective_thresholds_for [] (mkInstance ruleC4) productC4).state)
        productC4).lookups = 1 ∧
    (effective_thresholds_for []
        ((effective_thresholds_for [] (mkInstance ruleC4) productC4).state)
        productC4).lookups ≠ 0 := by
  exact ⟨rfl, rfl, fun h => Nat.one_ne_zero h⟩

/-- C4 (amended): the second of two successive calls on the same instance
always returns the identical result; the second lookup is skipped (memo hit)
when the pair's association exists with both overrides non-null, while in
every other case the association lookup is repeated. -/
theorem claim4_amended_thm (store : List ProductAlertRuleRow)
    (p : ProductRow) (r : AlertRuleRow) :
    (effective_thresholds_for store
        ((effective_thresholds_for store (mkInstance r) p).state) p).result =
      (effective_thresholds_for store (mkInstance r) p).result ∧
    ((∃ l, findLink store p.id r.id = some l ∧
        l.min_threshold ≠ none ∧ l.max_threshold ≠ none) →
      (effective_thresholds_for store
          ((effective_thresholds_for store (mkInstance r) p).state) p).lookups = 0) ∧
    ((∀ l, findLink store p.id r.id = some l →
        l.min_threshold = none ∨ l.max_threshold = none) →
      (effective_thresholds_for store
          ((effective_thresholds_for store (mkInstance r) p).state) p).lookups = 1) := by
  cases hfind : findLink store p.id r.id with
  | none =>
      have h1 : effective_thresholds_for store (mkInstance r) p =
          { result := (r.default_min_threshold, r.default_max_threshold)
            state := mkInstance r, lookups := 1 } := by
        rw [effective_fresh]
        exact lookupAndResolve_none store (mkInstance r) p hfind
      refine ⟨?_, ?_, ?_⟩
      · rw [h1]
        show (effective_thresholds_for store (mkInstance r) p).result =
          (r.default_min_threshold, r.default_max_threshold)
        rw [h1]
      · rintro ⟨l, hl, -, -⟩
        exact absurd hl (by simp)
      · intro _
        rw [h1]
        show (effective_thresholds_for store (mkInstance r) p).lookups = 1
        rw [h1]
  | some l =>
      by_cases hfull : l.min_threshold ≠ none ∧ l.max_threshold ≠ none
      · obtain ⟨m, hm⟩ := Option.ne_none_iff_exists.mp hfull.1
        obtain ⟨M, hM⟩ := Option.ne_none_iff_exists.mp hfull.2
        have h1 : effective_thresholds_for store (mkInstance r) p =
            { result := (some m, some M)
              state := { rule := r
                         par_cache := some { product_id := p.id, alert_rule_id := r.id
                                             min := m, max := M } }
              lookups := 1 } := by
          rw [effective_fresh]
          exact lookupAndResolve_full store (mkInstance r) p l m M hfind hm.symm hM.symm
        have h2 : effective_thresholds_for store
            { rule := r
              par_cache := some { product_id := p.id, alert_rule_id := r.id
                                  min := m, max := M } } p =
            { result := (some m, some M)
              state := { rule := r
                         par_cache := some { product_id := p.id, alert_rule_id := r.id
                                             min := m, max := M } }
              lookups := 0 } :=
          effective_memo_hit store _ p _ rfl rfl rfl
        refine ⟨?_, ?_, ?_⟩
        · rw [h1]
          show (effective_thresholds_for store
              { rule := r
                par_cache := some { product_id := p.id, alert_rule_id := r.id
                                    min := m, max := M } } p).result = (some m, some M)
          rw [h2]
        · intro _
          rw [h1]
          show (effective_thresholds_for store
              { rule := r
                par_cache := some { product_id := p.id, alert_rule_id := r.id
                                    min := m, max := M } } p).lookups = 0
          rw [h2]
        · intro hall
          rcases hall l rfl with h | h
          · exact absurd h hfull.1
          · exact absurd h hfull.2
      · have hor : l.min_threshold = none ∨ l.max_threshold = none := by
          by_cases hmin : l.min_threshold = none
          · exact Or.inl hmin
          · rcases not_and_or.mp hfull with h | h
            · exact absurd hmin (by simpa using h)
            · exact Or.inr (by simpa using h)
        have h1 : effective_thresholds_for store (mkInstance r) p =
            { result := (r.default_min_threshold, r.default_max_threshold)
              state := mkInstance r, lookups := 1 } := by
          rw [effective_fresh]
          exact lookupAndResolve_partial store (mkInstance r) p l hfind hor
        refine ⟨?_, ?_, ?_⟩
        · rw [h1]
          show (effective_thresholds_for store (mkInstance r) p).result =
            (r.default_min_threshold, r.default_max_threshold)
          rw [h1]
        · rintro ⟨l2, hl2, hm2, hM2⟩
          obtain rfl : l2 = l := by injection hl2 with h; exact h.symm
          rcases hor with h | h
          · exact absurd h hm2
          · exact absurd h hM2
        · intro _
          rw [h1]
          show (effective_thresholds_for store (mkInstance r) p).lookups = 1
          rw [h1]

def productC4w : ProductRow :=
  { id := 42, name := "Heat Pump", category_id := 3, sku := "HP-42" }

def ruleC4w : AlertRuleRow :=
  { id := 5, name := "Peak Load", severity := Severity.CRITICAL, unit := "kWh"
    default_min_threshold := some 2, default_max_threshold := some 9 }

def linkC4w : ProductAlertRuleRow :=
  { id := 401, product_id := 42, alert_rule_id := 5
    min_threshold := some 3, max_threshold := some 8, unit_override := none }

/-- C4 (amended) witness: with a full override in the store, the second call
repeats the first call's result and issues no lookup. -/
theorem claim4_amended_witness :
    (effective_thresholds_for [linkC4w]
        ((effective_thresholds_for [linkC4w] (mkInstance ruleC4w) productC4w).state)
        productC4w).result =
      (effective_thresholds_for [linkC4w] (mkInstance ruleC4w) productC4w).result ∧
    (effective_thresholds_for [linkC4w]
        ((effective_thresholds_for [linkC4w] (mkInstance ruleC4w) productC4w).state)
        productC4w).lookups = 0 :=
  ⟨(claim4_amended_thm [linkC4w] productC4w ruleC4w).1,
   (claim4_amended_thm [linkC4w] productC4w ruleC4w).2.1
     ⟨linkC4w, rfl, by simp [linkC4w], by simp [linkC4w]⟩⟩

/-- C5: for every fixed store and every call sequence on a single fresh
instance (arbitrarily interleaving products), the memoised resolver returns
call-for-call the same pairs as the memo-free resolver: the memo never yields
a cached pair for a different (product, rule) key. -/
theorem claim5_thm (store : List ProductAlertRuleRow)
    (r : AlertRuleRow) (ps : List ProductRow) :
    runResolves store (mkInstance r) ps = ps.map (resolveMemoFree store r) := by
  have key : ∀ (qs : List ProductRow) (s : AlertRuleInstance), s.rule = r →
      cacheConsistent store s →
      runResolves store s qs = qs.map (resolveMemoFree store r) := by
    intro qs
    induction qs with
    | nil => intro s _ _; rfl
    | cons q qs ih =>
        intro s hr hc
        obtain ⟨h1, h2, h3⟩ := resolve_step store s q hc
        simp only [runResolves, List.map]
        rw [h1, hr, ih (effective_thresholds_for store s q).state (h2.trans hr) h3]
  exact key ps (mkInstance r) rfl (mkInstance_consistent store r)

/-- Error kinds the persistence boundary can raise for the declared schema
rules: check-constraint violation, uniqueness violation, and a blocked
(PROTECT) delete. -/
inductive DbError where
  | checkViolation (cname : String)
  | uniqueViolation (cname : String)
  | protectViolation (cname : String)
deriving DecidableEq, Repr

/-- SQL three-valued `<=` on nullable columns: TRUE only when both operands
are non-null and the comparison holds. -/
def sqlLte (a b : Option ℚ) : Bool :=
  match a, b with
  | some x, some y => decide (x ≤ y)
  | _, _ => false

/-- CheckConstraint `alert_rule_default_min_lte_max`: default_min null, or
default_max null, or default_min <= default_max. -/
def alertRuleCheckOk (r : AlertRuleRow) : Bool :=
  r.default_min_threshold.isNone || r.default_max_threshold.isNone ||
    sqlLte r.default_min_threshold r.default_max_threshold

/-- CheckConstraint `par_min_lte_max` on ProductAlertRule. -/
def parCheckOk (l : ProductAlertRuleRow) : Bool :=
  l.min_threshold.isNone || l.max_threshold.isNone ||
    sqlLte l.min_threshold l.max_threshold

/-- Persist an AlertRule row, enforcing the check constraint and the
`unique_together [("name", "severity")]` rule. -/
def insertAlertRule (db : List AlertRuleRow) (r : AlertRuleRow) :
    Except DbError (List AlertRuleRow) :=
  if alertRuleCheckOk r then
    if db.any (fun x => x.name == r.name && x.severity == r.severity) then
      Except.error (DbError.uniqueViolation "alert_rule_name_severity")
    else Except.ok (r :: db)
  else Except.error (DbError.checkViolation "alert_rule_default_min_lte_max")

/-- Persist a ProductAlertRule row, enforcing `par_min_lte_max` and the
UniqueConstraint `uix_product_alert_unique` on (product, alert_rule). -/
def insertProductAlertRule (db : List ProductAlertRuleRow)
    (l : ProductAlertRuleRow) : Except DbError (List ProductAlertRuleRow) :=
  if parCheckOk l then
    if db.any (fun x => x.product_id == l.product_id &&
        x.alert_rule_id == l.alert_rule_id) then
      Except.error (DbError.uniqueViolation "uix_product_alert_unique")
    else Except.ok (l :: db)
  else Except.error (DbError.checkViolation "par_min_lte_max")

theorem insertAlertRule_ok (db db' : List AlertRuleRow) (r : AlertRuleRow)
    (h : insertAlertRule db r = Except.ok db') :
    db' = r :: db ∧ alertRuleCheckOk r = true := by
  unfold insertAlertRule at h
  split at h
  next hchk =>
    split at h
    next => simp at h
    next =>
      injection h with h
      exact ⟨h.symm, hchk⟩
  next => simp at h

theorem insertProductAlertRule_ok (db db' : List ProductAlertRuleRow)
    (l : ProductAlertRuleRow)
    (h : insertProductAlertRule db l = Except.ok db') :
    db' = l :: db ∧ parCheckOk l = true ∧
      db.any (fun x => x.product_id == l.product_id &&
        x.alert_rule_id == l.alert_rule_id) = false := by
  unfold insertProductAlertRule at h
  split at h
  next hchk =>
    split at h
    next => simp at h
    next hdup =>
      injection h with h
      exact ⟨h.symm, hchk, Bool.eq_false_iff.mpr hdup⟩
  next => simp at h

theorem alertRuleCheckOk_le (r : AlertRuleRow)
    (hchk : alertRuleCheckOk r = true) (a b : ℚ)
    (ha : r.default_min_threshold = some a)
    (hb : r.default_max_threshold = some b) : a ≤ b := by
  unfold alertRuleCheckOk at hchk
  rw [ha, hb] at hchk
  simpa [sqlLte] using hchk

theorem parCheckOk_le (l : ProductAlertRuleRow)
    (hchk : parCheckOk l = true) (a b : ℚ)
    (ha : l.min_threshold = some a) (hb : l.max_threshold = some b) : a ≤ b := by
  unfold parCheckOk at hchk
  rw [ha, hb] at hchk
  simpa [sqlLte] using hchk

def badRuleC6 : AlertRuleRow :=
  { id := 6, name := "Inverted Bounds", severity := Severity.MEDIUM, unit := "kWh"
    default_min_threshold := some 100, default_max_threshold := some 50 }

def nullMinRuleC6 : AlertRuleRow :=
  { id := 7, name := "Only Max", severity := Severity.MEDIUM, unit := "kWh"
    default_min_threshold := none, default_max_threshold := some 50 }

/-- C6: every persisted AlertRule/ProductAlertRule row satisfies min ≤ max
whenever both bounds are non-null; persisting an AlertRule with
default_min=100 > default_max=50 is rejected by the check constraint; rows
with one or both bounds null pass both check constraints. -/
theorem claim6_thm :
    (∀ (db db' : List AlertRuleRow) (r : AlertRuleRow),
        insertAlertRule db r = Except.ok db' →
        (∀ x ∈ db, ∀ a b : ℚ, x.default_min_threshold = some a →
            x.default_max_threshold = some b → a ≤ b) →
        (∀ x ∈ db', ∀ a b : ℚ, x.default_min_threshold = some a →
            x.default_max_threshold = some b → a ≤ b)) ∧
    (∀ (db db' : List ProductAlertRuleRow) (l : ProductAlertRuleRow),
        insertProductAlertRule db l = Except.ok db' →
        (∀ x ∈ db, ∀ a b : ℚ, x.min_threshold = some a →
            x.max_threshold = some b → a ≤ b) →
        (∀ x ∈ db', ∀ a b : ℚ, x.min_threshold = some a →
            x.max_threshold = some b → a ≤ b)) ∧
    (∀ db : List AlertRuleRow,
        insertAlertRule db badRuleC6 =
          Except.error (DbError.checkViolation "alert_rule_default_min_lte_max")) ∧
    (∀ r : AlertRuleRow,
        r.default_min_threshold = none ∨ r.default_max_threshold = none →
        alertRuleCheckOk r = true) ∧
    (∀ l : ProductAlertRuleRow,
        l.min_threshold = none ∨ l.max_threshold = none →
        parCheckOk l = true) := by
  refine ⟨?_, ?_, ?_, ?_, ?_⟩
  · intro db db' r hins hdb
    obtain ⟨hdb', hchk⟩ := insertAlertRule_ok db db' r hins
    subst hdb'
    intro x hx a b ha hb
    rcases List.mem_cons.mp hx with rfl | hx
    · exact alertRuleCheckOk_le x hchk a b ha hb
    · exact hdb x hx a b ha hb
  · intro db db' l hins hdb
    obtain ⟨hdb', hchk, -⟩ := insertProductAlertRule_ok db db' l hins
    subst hdb'
    intro x hx a b ha hb
    rcases List.mem_cons.mp hx with rfl | hx
    · exact parCheckOk_le x hchk a b ha hb
    · exact hdb x hx a b ha hb
  · intro db
    have hbad : alertRuleCheckOk badRuleC6 = false := by decide
    simp [insertAlertRule, hbad]
  · intro r h
    rcases h with h | h <;> simp [alertRuleCheckOk, h]
  · intro l h
    rcases h with h | h <;> simp [parCheckOk, h]

/-- C6 witness: the concrete violating rule is rejected by the named check
constraint, and a rule with a null min bound passes the check. -/
theorem claim6_witness :
    insertAlertRule [] badRuleC6 =
      Except.error (DbError.checkViolation "alert_rule_default_min_lte_max") ∧
    alertRuleCheckOk nullMinRuleC6 = true :=
  ⟨claim6_thm.2.2.1 [], claim6_thm.2.2.2.1 nullMinRuleC6 (Or.inl rfl)⟩

/-- C7: persisting a second ProductAlertRule for a (product, alert_rule) pair
already present is rejected by `uix_product_alert_unique` (the Except result
carries no new store: the store is unchanged), and successful inserts preserve
at-most-one-row-per-pair. -/
theorem claim7_thm :
    (∀ (db : List ProductAlertRuleRow) (l x : ProductAlertRuleRow),
        x ∈ db → x.product_id = l.product_id → x.alert_rule_id = l.alert_rule_id →
        parCheckOk l = true →
        insertProductAlertRule db l =
          Except.error (DbError.uniqueViolation "uix_product_alert_unique")) ∧
    (∀ (db db' : List ProductAlertRuleRow) (l : ProductAlertRuleRow),
        insertProductAlertRule db l = Except.ok db' →
        db.Pairwise (fun x y =>
          ¬(x.product_id = y.product_id ∧ x.alert_rule_id = y.alert_rule_id)) →
        db'.Pairwise (fun x y =>
          ¬(x.product_id = y.product_id ∧ x.alert_rule_id = y.alert_rule_id))) := by
  constructor
  · intro db l x hx hp hr hchk
    have hany : db.any (fun y => y.product_id == l.product_id &&
        y.alert_rule_id == l.alert_rule_id) = true :=
      List.any_eq_true.mpr ⟨x, hx, by simp [hp, hr]⟩
    simp [insertProductAlertRule, hchk, hany]
  · intro db db' l hins hpw
    obtain ⟨hdb', -, hany⟩ := insertProductAlertRule_ok db db' l hins
    subst hdb'
    refine List.pairwise_cons.mpr ⟨?_, hpw⟩
    intro y hy hcontra
    have htrue : db.any (fun x => x.product_id == l.product_id &&
        x.alert_rule_id == l.alert_rule_id) = true :=
      List.any_eq_true.mpr ⟨y, hy, by rw [← hcontra.1, ← hcontra.2]; simp⟩
    rw [hany] at htrue
    exact Bool.false_ne_true htrue

def linkC7 : ProductAlertRuleRow :=
  { id := 701, product_id := 71, alert_rule_id := 7
    min_threshold := some 5, max_threshold := some 20, unit_override := none }

def linkC7b : ProductAlertRuleRow :=
  { id := 702, product_id := 71, alert_rule_id := 7
    min_threshold := none, max_threshold := none, unit_override := none }

/-- C7 witness: a second association for pair (71, 7) is rejected by the
uniqueness constraint. -/
theorem claim7_witness :
    insertProductAlertRule [linkC7] linkC7b =
      Except.error (DbError.uniqueViolation "uix_product_alert_unique") :=
  claim7_thm.1 [linkC7] linkC7b linkC7 (by simp) rfl rfl rfl

/-- A `Measurement` row: device FK, energy value, and the nullable
`triggered_alert` FK (SET_NULL on AlertRule deletion). -/
structure MeasurementRow where
  id : Nat
  device_id : Nat
  energy_kwh : ℚ
  triggered_alert_id : Option Nat
deriving DecidableEq, Repr

/-- An `AlertEvent` row: device FK (CASCADE) and alert_rule FK (PROTECT). -/
structure AlertEventRow where
  id : Nat
  device_id : Nat
  alert_rule_id : Nat
  message : String
deriving DecidableEq, Repr

/-- The tables touched when an AlertRule is deleted. -/
structure DevicesDb where
  alert_rules : List AlertRuleRow
  product_alert_rules : List ProductAlertRuleRow
  measurements : List MeasurementRow
  alert_events : List AlertEventRow
deriving DecidableEq, Repr

/-- Delete an AlertRule by id, applying the declared `on_delete` policies:
PROTECT from AlertEvent.alert_rule blocks the delete; CASCADE removes the
ProductAlertRule links; SET_NULL clears Measurement.triggered_alert. -/
def deleteAlertRule (db : DevicesDb) (rid : Nat) : Except DbError DevicesDb :=
  if db.alert_events.any (fun e => e.alert_rule_id == rid) then
    Except.error (DbError.protectViolation "alert_event_alert_rule")
  else
    Except.ok
      { alert_rules := db.alert_rules.filter (fun r => !(r.id == rid))
        product_alert_rules :=
          db.product_alert_rules.filter (fun l => !(l.alert_rule_id == rid))
        measurements := db.measurements.map (fun m =>
          if m.triggered_alert_id = some rid then
            { m with triggered_alert_id := none }
          else m)
        alert_events := db.alert_events }

/-- C8: deleting an AlertRule is blocked (error, no new store) while any
AlertEvent references it; otherwise it succeeds, removes the rule, cascades
away exactly the ProductAlertRule links referencing it, nulls
triggered_alert on exactly the Measurements that referenced it (row count
preserved), and leaves AlertEvents untouched. -/
theorem claim8_thm (db : DevicesDb) (rid : Nat) :
    ((∃ e ∈ db.alert_events, e.alert_rule_id = rid) →
        deleteAlertRule db rid =
          Except.error (DbError.protectViolation "alert_event_alert_rule")) ∧
    (∀ db', deleteAlertRule db rid = Except.ok db' →
        (∀ r ∈ db'.alert_rules, r.id ≠ rid) ∧
        (∀ l ∈ db'.product_alert_rules, l.alert_rule_id ≠ rid) ∧
        (∀ l ∈ db.product_alert_rules, l.alert_rule_id ≠ rid →
            l ∈ db'.product_alert_rules) ∧
        (∀ m ∈ db'.measurements, m.triggered_alert_id ≠ some rid) ∧
        (∀ m ∈ db.measurements, m.triggered_alert_id = some rid →
            { m with triggered_alert_id := none } ∈ db'.measurements) ∧
        db'.measurements.length = db.measurements.length ∧
        db'.alert_events = db.alert_events) := by
  constructor
  · rintro ⟨e, he, herule⟩
    have hany : db.alert_events.any (fun x => x.alert_rule_id == rid) = true :=
      List.any_eq_true.mpr ⟨e, he, by simp [herule]⟩
    simp [deleteAlertRule, hany]
  · intro db' hdel
    unfold deleteAlertRule at hdel
    split at hdel
    next => simp at hdel
    next =>
      injection hdel with hdel
      subst hdel
      refine ⟨?_, ?_, ?_, ?_, ?_, ?_, rfl⟩
      · intro r hr
        have := (List.mem_filter.mp hr).2
        simpa using this
      · intro l hl
        have := (List.mem_filter.mp hl).2
        simpa using this
      · intro l hl hne
        exact List.mem_filter.mpr ⟨hl, by simpa using hne⟩
      · intro m' hm'
        obtain ⟨m, hm, hfm⟩ := List.mem_map.mp hm'
        subst hfm
        by_cases htrig : m.triggered_alert_id = some rid
        · simp [htrig]
        · simp [htrig]
      · intro m hm htrig
        exact List.mem_map.mpr ⟨m, hm, by simp [htrig]⟩
      · exact List.length_map _ _

def ruleC8 : AlertRuleRow :=
  { id := 8, name := "Overcurrent", severity := Severity.CRITICAL, unit := "A"
    default_min_threshold := none, default_max_threshold := some 16 }

def eventC8 : AlertEventRow :=
  { id := 801, device_id := 1, alert_rule_id := 8, message := "threshold breach" }

def dbC8 : DevicesDb :=
  { alert_rules := [ruleC8], product_alert_rules := []
    measurements := [], alert_events := [eventC8] }

/-- C8 witness: an AlertEvent referencing rule 8 blocks its deletion. -/
theorem claim8_witness :
    deleteAlertRule dbC8 8 =
      Except.error (DbError.protectViolation "alert_event_alert_rule") :=
  (claim8_thm dbC8 8).1 ⟨eventC8, by simp [dbC8], rfl⟩

/-- `DeviceForm.clean_name` (src/EcoEnergy/devices/forms.py): a method of the
form class, so the framework's cleaning pipeline invokes it for the `name`
field; it raises a ValidationError when the name has fewer than 3
characters, otherwise returns the name. -/
def deviceForm_clean_name (name : String) : Except String String :=
  if name.length < 3 then
    Except.error "The name must have at least 3 characters"
  else Except.ok name

/-- Field-level errors recorded for `name` when a DeviceForm is validated:
the ValidationError message, surfaced on the field, not an exception that
aborts the request; no row is persisted while errors are present. -/
def deviceForm_name_errors (name : String) : List String :=
  match deviceForm_clean_name name with
  | Except.error e => [e]
  | Except.ok _ => []

/-- `DispositivoForm` (src/monitoreo/dispositivos/forms.py): the function
`clean_nombre` is written inside the `Meta` class body, making it an
attribute of `Meta`, not of the form; the cleaning pipeline looks up
`clean_<field>` hooks on the form instance and therefore never calls it, so
the `nombre` field gets no custom length validation. -/
def dispositivoForm_nombre_errors (_nombre : String) : List String := []

/-- The validator as written inside `DispositivoForm.Meta` — dead code the
pipeline never reaches, transcribed to exhibit the divergence. -/
def dispositivoForm_Meta_clean_nombre (nombre : String) : Except String String :=
  if nombre.length < 3 then
    Except.error "El nombre debe tener almenos 3 caracteres"
  else Except.ok nombre

/-- C9 (code bug): DeviceForm rejects the 2-character name "ab" with a
field-level error and accepts the 3-character "abc", but DispositivoForm
records no error for the same 2-character name — its clean_nombre sits unused
inside Meta even though, as written there, it would have rejected it. -/
theorem claim9_bug_eval :
    deviceForm_name_errors "ab" = ["The name must have at least 3 characters"] ∧
    deviceForm_name_errors "abc" = [] ∧
    dispositivoForm_nombre_errors "ab" = [] ∧
    dispositivoForm_Meta_clean_nombre "ab" =
      Except.error "El nombre debe tener almenos 3 caracteres" :=
  ⟨rfl, rfl, rfl, rfl⟩

/-- An `Organization` row. -/
structure OrganizationRow where
  id : Nat
  name : String
deriving DecidableEq, Repr

/-- A `Category` row (name is globally unique). -/
structure CategoryRow where
  id : Nat
  name : String
deriving DecidableEq, Repr

/-- A `Zone` row: owning organization FK plus per-organization-unique name. -/
structure ZoneRow where
  id : Nat
  organization_id : Nat
  name : String
deriving DecidableEq, Repr

/-- A `Device` row: organization, zone and product FKs, name unique within
the organization, and the required max power rating. -/
structure DeviceRow where
  id : Nat
  organization_id : Nat
  zone_id : Nat
  product_id : Nat
  name : String
  max_power_w : Nat
deriving DecidableEq, Repr

/-- Store state over the tables the Device schema references. -/
structure TenantDb where
  organizations : List OrganizationRow
  categories : List CategoryRow
  products : List ProductRow
  zones : List ZoneRow
  devices : List DeviceRow
deriving Repr

/-- Boolean pairwise check: `rel` holds for every ordered pair of distinct
positions. -/
def listPairwiseB {α : Type} (rel : α → α → Bool) : List α → Bool
  | [] => true
  | x :: xs => xs.all (fun y => rel x y) && listPairwiseB rel xs

/-- Every constraint the schema declares over these tables: primary-key
uniqueness, Category.name and Product.sku uniqueness, the
(organization, name) unique_together rules on Zone and Device, and
foreign-key integrity for every declared FK. Deliberately absent, because the
schema declares no such rule: nothing relates Device.organization to
Device.zone's organization. -/
def tenantDbValid (db : TenantDb) : Bool :=
  listPairwiseB (fun a b => !(a.id == b.id)) db.organizations &&
  listPairwiseB (fun a b => !(a.id == b.id) && !(a.name == b.name)) db.categories &&
  listPairwiseB (fun a b => !(a.id == b.id) && !(a.sku == b.sku)) db.products &&
  listPairwiseB (fun a b => !(a.id == b.id) &&
      !(a.organization_id == b.organization_id && a.name == b.name)) db.zones &&
  listPairwiseB (fun a b => !(a.id == b.id) &&
      !(a.organization_id == b.organization_id && a.name == b.name)) db.devices &&
  db.products.all (fun p => db.categories.any (fun c => c.id == p.category_id)) &&
  db.zones.all (fun z => db.organizations.any (fun o => o.id == z.organization_id)) &&
  db.devices.all (fun d =>
    db.organizations.any (fun o => o.id == d.organization_id) &&
    db.zones.any (fun z => z.id == d.zone_id) &&
    db.products.any (fun p => p.id == d.product_id))

def orgA : OrganizationRow := { id := 1, name := "Acme Energy" }

def orgB : OrganizationRow := { id := 2, name := "Borealis Labs" }

def catC10 : CategoryRow := { id := 1, name := "HVAC" }

def productC10 : ProductRow :=
  { id := 1, name := "Fan Coil", category_id := 1, sku := "FC-01" }

def zoneC10 : ZoneRow := { id := 1, organization_id := 2, name := "Roof" }

def deviceC10 : DeviceRow :=
  { id := 1, organization_id := 1, zone_id := 1, product_id := 1
    name := "Fan-1", max_power_w := 900 }

def gapDb : TenantDb :=
  { organizations := [orgA, orgB], categories := [catC10]
    products := [productC10], zones := [zoneC10], devices := [deviceC10] }

/-- C10: a store state satisfying every declared schema constraint in which
the device's zone belongs to organization 2 while the device itself belongs
to organization 1 — the zone-organization consistency property is not an
invariant of the schema. -/
theorem claim10_thm :
    tenantDbValid gapDb = true ∧
    deviceC10 ∈ gapDb.devices ∧
    zoneC10 ∈ gapDb.zones ∧
    deviceC10.zone_id = zoneC10.id ∧
    zoneC10.organization_id ≠ deviceC10.organization_id := by
  refine ⟨by decide, by simp [gapDb], by simp [gapDb], rfl, by decide⟩
